import Mathlib

/-!
Shallow embedding of the `meas_astrom` matching/cleaning/orchestration code:
`python/lsst/meas/astrom/determineWcs.py` (functions `determineWcs`,
`getImageSizeInArcsec`, `matchSrcAndCatalogue`) and
`python/lsst/meas/astrom/denormalizeMatches.py` (function `denormalizeMatches`).

Numeric modelling: pixel and sky coordinates, distances and policy parameters
are rationals (Python floats idealised); the one genuine irrational operation,
`math.sqrt` in `getImageSizeInArcsec`, is modelled with `Real.sqrt`, so the
image size and the catalogue-fetch radius live in `ℝ`.

External collaborators (the astrometry.net solver, the `MatchSrcToCatalogue`
matcher, `cleanBadPoints.clean`, `CreateWcsWithSip`) are opaque services: their
behaviour is a parameter (`Env`), and the calls the orchestrator makes to them
are recorded in an event trace.  Python exceptions are modelled with `Except`.
-/

/-- A detected source: the pixel position exposed by `getXAstrom`/`getYAstrom`.
Any further per-source data is irrelevant to the embedded code paths. -/
structure Source where
  xAstrom : ℚ
  yAstrom : ℚ
deriving DecidableEq

/-- A world coordinate system: the embedded code only ever calls
`wcs.xyToRaDec(x, y)`, mapping pixel coordinates to (ra, dec). -/
structure Wcs where
  xyToRaDec : ℚ → ℚ → ℚ × ℚ

/-- A catalogue entry returned by `solver.getCatalogue`. -/
structure CatEntry where
  ra : ℚ
  dec : ℚ
deriving DecidableEq

/-- The field values of one `lsst.afw.table` record: named fields with their
values (values idealised as rationals; only copying matters here). -/
abbrev FieldVals := List (String × ℚ)

/-- One match (`lsst.afw.table.ReferenceMatch`-like): a reference-catalogue
record (`first`), a source record (`second`), and the match `distance`. -/
structure MatchRec where
  first : FieldVals
  second : FieldVals
  distance : ℚ
deriving DecidableEq

/-- Matching metadata (`lsst.daf.base.PropertyList`), opaque key/value data. -/
abbrev PropertyList := List (String × String)

/-- Python exceptions raised by the embedded code. -/
inductive PyError where
  | runtimeError (msg : String)
  | valueError (msg : String)
  | unboundLocalError (name : String)
deriving DecidableEq

/-- The flat output catalog of `denormalizeMatches`
(`lsst.afw.table.BaseCatalog`): a combined schema, the rows, and optional
out-of-band metadata. -/
structure BaseCatalog where
  schema : List String
  rows : List FieldVals
  metadata : Option PropertyList
deriving DecidableEq

/-- Rename every field of a record into the namespace `p` (what
`row.assign(record, mapper)` does for a `SchemaMapper.join` mapper whose
output fields are the input fields prefixed with `p`). -/
def prefixFields (p : String) (r : FieldVals) : FieldVals :=
  r.map (fun f => (p ++ f.1, f.2))

/-- One output row of `denormalizeMatches`: the loop body
`row.assign(mm.first, refMapper); row.assign(mm.second, srcMapper);
row.set(distKey, mm.distance)`. -/
def denormRow (mm : MatchRec) : FieldVals :=
  prefixFields "ref_" mm.first ++ prefixFields "src_" mm.second
    ++ [("distance", mm.distance)]

/-- `denormalizeMatches(matches, matchMeta=None)` from
`denormalizeMatches.py`: raises `RuntimeError("No matches provided.")` on an
empty list; otherwise builds the combined schema from the schemas of
`matches[0].first` and `matches[0].second` via
`SchemaMapper.join([refSchema, srcSchema], ["ref_", "src_"])` plus an appended
`"distance"` field, and fills one row per match (`denormRow`). -/
def denormalizeMatches (ms : List MatchRec) (matchMeta : Option PropertyList) :
    Except PyError BaseCatalog :=
  match ms with
  | [] => .error (.runtimeError "No matches provided.")
  | m0 :: _ =>
    let refSchema := m0.first.map Prod.fst
    let srcSchema := m0.second.map Prod.fst
    let schema := refSchema.map (fun n => "ref_" ++ n)
        ++ srcSchema.map (fun n => "src_" ++ n) ++ ["distance"]
    let rows := ms.map denormRow
    .ok { schema := schema, rows := rows, metadata := matchMeta }

/-- `C6`: for every (optional) metadata argument, calling `denormalizeMatches`
with an empty match list raises the hard precondition error
`RuntimeError("No matches provided.")` and produces no table. -/
theorem denormalizeMatches_empty_raises (matchMeta : Option PropertyList) :
    denormalizeMatches [] matchMeta = .error (.runtimeError "No matches provided.") := by
  rfl

/-- `C7`: on a non-empty match list of length `N`, `denormalizeMatches`
returns a catalog of exactly `N` rows, in input order: row `i` consists of
exactly the fields of match `i`'s catalog-side record (prefixed `ref_`),
then the fields of match `i`'s source-side record (prefixed `src_`), then
the scalar distance of match `i`.  (The embedding is a pure function, so the
input match list is not mutated.) -/
theorem denormalizeMatches_roundtrip (ms : List MatchRec)
    (matchMeta : Option PropertyList) (h : ms ≠ []) :
    ∃ c, denormalizeMatches ms matchMeta = .ok c ∧
      c.rows.length = ms.length ∧
      ∀ i (hi : i < ms.length), ∃ hi' : i < c.rows.length,
        c.rows.get ⟨i, hi'⟩ =
          (ms.get ⟨i, hi⟩).first.map (fun f => ("ref_" ++ f.1, f.2))
            ++ (ms.get ⟨i, hi⟩).second.map (fun f => ("src_" ++ f.1, f.2))
            ++ [("distance", (ms.get ⟨i, hi⟩).distance)] := by
  match ms with
  | [] => exact absurd rfl h
  | m0 :: rest =>
    refine ⟨_, rfl, by simp, ?_⟩
    intro i hi
    refine ⟨by simpa using hi, ?_⟩
    have hmap : ((m0 :: rest).map denormRow).get ⟨i, by simpa using hi⟩
        = denormRow ((m0 :: rest).get ⟨i, hi⟩) := by
      simp only [List.get_eq_getElem, List.getElem_map]
    exact hmap.trans (by simp [denormRow, prefixFields])

/-- Witness for `C7` at a concrete one-element match list. -/
theorem denormalizeMatches_roundtrip_witness :
    ∃ c, denormalizeMatches [⟨[("id", 7)], [("flux", 3)], (1 : ℚ)/2⟩] none = .ok c ∧
      c.rows.length = 1 ∧
      ∀ i (hi : i < 1), ∃ hi' : i < c.rows.length,
        c.rows.get ⟨i, hi'⟩ =
          (([⟨[("id", 7)], [("flux", 3)], (1 : ℚ)/2⟩] : List MatchRec).get ⟨i, hi⟩).first.map
              (fun f => ("ref_" ++ f.1, f.2))
            ++ (([⟨[("id", 7)], [("flux", 3)], (1 : ℚ)/2⟩] : List MatchRec).get ⟨i, hi⟩).second.map
              (fun f => ("src_" ++ f.1, f.2))
            ++ [("distance", (([⟨[("id", 7)], [("flux", 3)], (1 : ℚ)/2⟩] : List MatchRec).get
              ⟨i, hi⟩).distance)] :=
  denormalizeMatches_roundtrip [⟨[("id", 7)], [("flux", 3)], (1 : ℚ)/2⟩] none (by simp)

/-- `C10`: the combined schema is built solely from the first match's two
record schemas: catalog-side field names prefixed exactly `ref_`, then
source-side field names prefixed exactly `src_`, then one appended field named
exactly `distance` — whatever records the remaining matches carry. -/
theorem denormalizeMatches_schema_from_first (m0 : MatchRec) (rest : List MatchRec)
    (matchMeta : Option PropertyList) :
    ∃ c, denormalizeMatches (m0 :: rest) matchMeta = .ok c ∧
      c.schema = m0.first.map (fun f => "ref_" ++ f.1)
        ++ m0.second.map (fun f => "src_" ++ f.1) ++ ["distance"] := by
  exact ⟨_, rfl, by simp [denormalizeMatches, Function.comp_def]⟩

/-- The SIP object produced by `CreateWcsWithSip`: an order, a residual
scatter, and the refined `Wcs` (`getNewWcs`). -/
structure SipObject where
  order : ℕ
  scatterInArcsec : ℚ
  newWcs : Wcs

/-- The policy parameters read by `determineWcs` (via `policy.get`). -/
structure Policy where
  outputWcsKey : String
  allowDistortion : Bool
  matchThreshold : ℚ
  numBrightStars : ℕ
  blindSolve : Bool
  distanceForCatalogueMatchinArcsec : ℚ
  cleaningParameter : ℚ
  calculateSip : Bool
  wcsToleranceInArcsec : ℚ
  maxSipOrder : ℕ

/-- Behaviour of the external collaborators for one run:
`solveBlindResult` is what `solver.solve()` returns, `solveGuessResult` what
`solver.solve(wcsIn)` would return, `solverWcs` is `solver.getWcs()`,
`getCatalogue` is `solver.getCatalogue(radius)`, `getMatches` is
`MatchSrcToCatalogue(cat, img, wcs, distInArcsec).getMatches()` (`none`
models Python `None`), `clean` is `cleanBadPoints.clean(matchList, wcs,
nsigma)`, and `createSip` is `CreateWcsWithSip(matchList, linearWcs,
maxScatter, maxSipOrder)`. -/
structure Env where
  solveBlindResult : Bool
  solveGuessResult : Option Wcs → Bool
  solverWcs : Wcs
  getCatalogue : ℝ → List CatEntry
  getMatches : List CatEntry → List Source → Wcs → ℚ → Option (List MatchRec)
  clean : List MatchRec → Wcs → ℚ → List MatchRec
  createSip : List MatchRec → Wcs → ℚ → ℕ → SipObject

/-- A call the orchestrator makes to an external collaborator, recorded in
order of occurrence. -/
inductive Event where
  | solveBlind
  | solveGuess
  | getCatalogue (radiusInArcsec : ℝ)
  | getMatches
  | clean
  | createSip
  | reset

/-- `min` of a Python list: `None` (an exception site) when empty. -/
def listMin (xs : List ℚ) : Option ℚ :=
  match xs with
  | [] => none
  | x :: rest => some (rest.foldl min x)

/-- `max` of a Python list: `None` (an exception site) when empty. -/
def listMax (xs : List ℚ) : Option ℚ :=
  match xs with
  | [] => none
  | x :: rest => some (rest.foldl max x)

/-- `getImageSizeInArcsec(srcSet, wcs)` from `determineWcs.py`: bounding box
of the source pixel positions, lower-left and upper-right corners mapped
through `wcs.xyToRaDec`, then `sqrt(deltaRa**2 + deltaDec**2) * 3600`.
Returns `none` when `srcSet` is empty (Python: `min()` of an empty sequence
raises `ValueError`). -/
noncomputable def getImageSizeInArcsec (srcSet : List Source) (wcs : Wcs) : Option ℝ :=
  match listMin (srcSet.map Source.xAstrom), listMax (srcSet.map Source.xAstrom),
      listMin (srcSet.map Source.yAstrom), listMax (srcSet.map Source.yAstrom) with
  | some minx, some maxx, some miny, some maxy =>
    let llc := wcs.xyToRaDec minx miny
    let urc := wcs.xyToRaDec maxx maxy
    let deltaRa := urc.1 - llc.1
    let deltaDec := urc.2 - llc.2
    some (Real.sqrt ((deltaRa ^ 2 + deltaDec ^ 2 : ℚ) : ℝ) * 3600)
  | _, _, _, _ => none

/-- `matchSrcAndCatalogue(cat, img, wcs, distInArcsec, cleanParam)` from
`determineWcs.py`: raises `RuntimeError` when `cat`, `img` or `wcs` is `None`
(the checks are `is None` — emptiness is not tested); otherwise asks the
matcher for matches, raises `RuntimeError` when that result is `None`, and
finally cleans the match list with `cleanBadPoints.clean`.  Returns the
result together with the collaborator calls made. -/
def matchSrcAndCatalogue (env : Env) (cat : Option (List CatEntry))
    (img : Option (List Source)) (wcs : Option Wcs)
    (distInArcsec : ℚ) (cleanParam : ℚ) :
    Except PyError (List MatchRec) × List Event :=
  match cat with
  | none => (.error (.runtimeError "Catalogue list is not set"), [])
  | some cat0 =>
    match img with
    | none => (.error (.runtimeError "Image list is not set"), [])
    | some img0 =>
      match wcs with
      | none => (.error (.runtimeError "wcs is not set"), [])
      | some wcs0 =>
        match env.getMatches cat0 img0 wcs0 distInArcsec with
        | none =>
          (.error (.runtimeError "No matches found between image and catalogue"),
            [Event.getMatches])
        | some matchList =>
          (.ok (env.clean matchList wcs0 cleanParam), [Event.getMatches, Event.clean])

/-- `determineWcs(policy, exposure, sourceSet)` from `determineWcs.py`.
`wcsIn` is `exposure.getWcs()` (may be `None`).  Faithful points: the solve
step is `if doBlindSolve or True:` with `doBlindSolve = policy.get('blindSolve')
or (wcsIn is None)`, so the guess branch `solver.solve(wcsIn)` is dead code;
when `calculateSip` is false the final `return [matchList,
sipObject.getNewWcs()]` reads the never-assigned local `sipObject`
(`UnboundLocalError`).  Returns the Python result — `(None, wcsIn)` or
`[matchList, newWcs]`, both modelled as an option pair — or the raised
exception, together with the trace of collaborator calls. -/
noncomputable def determineWcs (env : Env) (policy : Policy)
    (wcsIn : Option Wcs) (srcSet : List Source) :
    Except PyError (Option (List MatchRec) × Option Wcs) × List Event :=
  let doBlindSolve := policy.blindSolve || wcsIn.isNone
  let isSolved := if doBlindSolve || true then env.solveBlindResult
                  else env.solveGuessResult wcsIn
  let ev1 : Event := if doBlindSolve || true then .solveBlind else .solveGuess
  if isSolved = false then
    (.ok (none, wcsIn), [ev1])
  else
    let linearWcs := env.solverWcs
    match getImageSizeInArcsec srcSet linearWcs with
    | none => (.error (.valueError "min() arg is an empty sequence"), [ev1])
    | some imgSizeInArcsec =>
      let cat := env.getCatalogue (2 * imgSizeInArcsec)
      let mr := matchSrcAndCatalogue env (some cat) (some srcSet) (some linearWcs)
          policy.distanceForCatalogueMatchinArcsec policy.cleaningParameter
      let evs := ev1 :: Event.getCatalogue (2 * imgSizeInArcsec) :: mr.2
      match mr.1 with
      | .error e => (.error e, evs)
      | .ok matchList =>
        if matchList.length = 0 then
          (.ok (none, wcsIn), evs)
        else
          if policy.calculateSip then
            let sipObject := env.createSip matchList linearWcs
                policy.wcsToleranceInArcsec policy.maxSipOrder
            (.ok (some matchList, some sipObject.newWcs),
              evs ++ [Event.createSip, Event.reset])
          else
            (.error (.unboundLocalError "sipObject"), evs ++ [Event.reset])

/-- Identity pixel-to-sky transform, used as a concrete fixture. -/
def w0 : Wcs := ⟨fun x y => (x, y)⟩

/-- A one-source image fixture. -/
def srcSet0 : List Source := [⟨0, 0⟩]

/-- A concrete match fixture. -/
def m0fix : MatchRec := ⟨[("id", 1)], [("flux", 2)], 0⟩

/-- A concrete policy: `blindSolve` false, `calculateSip` true. -/
def pol0 : Policy :=
  { outputWcsKey := "wcs", allowDistortion := true, matchThreshold := 1,
    numBrightStars := 50, blindSolve := false,
    distanceForCatalogueMatchinArcsec := 1, cleaningParameter := 3,
    calculateSip := true, wcsToleranceInArcsec := 1, maxSipOrder := 5 }

/-- `pol0` with `calculateSip` switched off. -/
def polNoSip : Policy := { pol0 with calculateSip := false }

/-- Collaborators that all succeed: the blind solve works, the matcher finds
one match, cleaning keeps everything. -/
def envBase : Env :=
  { solveBlindResult := true, solveGuessResult := fun _ => true,
    solverWcs := w0, getCatalogue := fun _ => [],
    getMatches := fun _ _ _ _ => some [m0fix],
    clean := fun ml _ _ => ml,
    createSip := fun _ _ _ _ => ⟨2, 0, w0⟩ }

/-- `envBase` but the blind solver finds no solution. -/
def envFail : Env := { envBase with solveBlindResult := false }

/-- `envBase` but the matcher returns Python `None`. -/
def envNoMatches : Env := { envBase with getMatches := fun _ _ _ _ => none }

/-- `envBase` but cleaning eliminates every association. -/
def envCleanEmpty : Env := { envBase with clean := fun _ _ _ => [] }

/-- On the one-source fixture under the identity transform the bounding box is
degenerate, so the image size evaluates to `0` arcsec. -/
theorem imgSize_srcSet0 : getImageSizeInArcsec srcSet0 w0 = some 0 := by
  norm_num [getImageSizeInArcsec, listMin, listMax, srcSet0, w0]

/-- `C1` (code bug): with `blindSolve` false and a usable input WCS supplied,
the code still performs the blind `solver.solve()` (the source reads
`if doBlindSolve or True:`, so `solver.solve(wcsIn)` is dead code), contrary
to the code's own comment "Do a blind solve if we're told to, or if we don't
have an input wcs". -/
theorem determineWcs_blindSolve_always :
    pol0.blindSolve = false ∧ (some w0).isSome = true ∧
      (determineWcs envFail pol0 (some w0) srcSet0).2 = [Event.solveBlind] := by
  refine ⟨rfl, rfl, ?_⟩
  simp [determineWcs, envFail, envBase]

/-- `C2` (code bug): with cleaning leaving a non-empty match list but
`calculateSip` false, `determineWcs` does not return the
`(matchList, refinedWcs)` pair: the final `return [matchList,
sipObject.getNewWcs()]` reads the never-assigned local `sipObject` and raises
`UnboundLocalError`. -/
theorem determineWcs_noSip_unbound :
    polNoSip.calculateSip = false ∧
      (determineWcs envBase polNoSip (some w0) srcSet0).1
        = .error (.unboundLocalError "sipObject") := by
  refine ⟨rfl, ?_⟩
  simp [determineWcs, envBase, polNoSip, pol0, imgSize_srcSet0, matchSrcAndCatalogue]

/-- `C3`: when the association-and-cleaning step yields zero surviving
associations, `determineWcs` returns the degraded outcome `(None, wcsIn)`
without raising and without invoking the distortion fitter
(`CreateWcsWithSip`). -/
theorem determineWcs_cleanEmpty_fallback (env : Env) (policy : Policy)
    (wcsIn : Option Wcs) (srcSet : List Source) (s : ℝ) (ml : List MatchRec)
    (h1 : env.solveBlindResult = true)
    (h2 : getImageSizeInArcsec srcSet env.solverWcs = some s)
    (h3 : env.getMatches (env.getCatalogue (2 * s)) srcSet env.solverWcs
        policy.distanceForCatalogueMatchinArcsec = some ml)
    (h4 : env.clean ml env.solverWcs policy.cleaningParameter = []) :
    (determineWcs env policy wcsIn srcSet).1 = .ok (none, wcsIn) ∧
      Event.createSip ∉ (determineWcs env policy wcsIn srcSet).2 := by
  simp [determineWcs, h1, h2, matchSrcAndCatalogue, h3, h4]

/-- Witness for `C3`: collaborators succeed but cleaning removes every
association; the result is the fallback pair and no SIP fit happens. -/
theorem determineWcs_cleanEmpty_fallback_witness :
    (determineWcs envCleanEmpty pol0 (some w0) srcSet0).1 = .ok (none, some w0) ∧
      Event.createSip ∉ (determineWcs envCleanEmpty pol0 (some w0) srcSet0).2 :=
  determineWcs_cleanEmpty_fallback envCleanEmpty pol0 (some w0) srcSet0 0 [m0fix]
    rfl imgSize_srcSet0 rfl rfl

/-- `C4`: when the blind solver reports no solution, `determineWcs` returns
`(None, wcsIn)` — `wcsIn` may itself be `None` — and its collaborator trace
is exactly the one solve call: no catalogue fetch, association, cleaning or
fitting happens. -/
theorem determineWcs_solveFailed (env : Env) (policy : Policy)
    (wcsIn : Option Wcs) (srcSet : List Source)
    (h : env.solveBlindResult = false) :
    determineWcs env policy wcsIn srcSet = (.ok (none, wcsIn), [Event.solveBlind]) := by
  simp [determineWcs, h]

/-- Witness for `C4`, with an absent input transform. -/
theorem determineWcs_solveFailed_witness :
    determineWcs envFail pol0 none srcSet0 = (.ok (none, none), [Event.solveBlind]) :=
  determineWcs_solveFailed envFail pol0 none srcSet0 rfl

/-- The three precondition `RuntimeError`s of `matchSrcAndCatalogue`. -/
def isPrecondError (r : Except PyError (List MatchRec)) : Prop :=
  r = .error (.runtimeError "Catalogue list is not set") ∨
    r = .error (.runtimeError "Image list is not set") ∨
    r = .error (.runtimeError "wcs is not set")

/-- Counterexample to `C5`: an empty — but present — catalogue point set does
not raise: with collaborators that return an empty cleaned list, the call
silently produces the empty association list. -/
theorem matchSrcAndCatalogue_emptyCat_no_raise :
    (matchSrcAndCatalogue envCleanEmpty (some []) (some srcSet0) (some w0) 1 3).1
      = .ok [] := by
  rfl

/-- `C5` as amended: `matchSrcAndCatalogue` raises one of its precondition
`RuntimeError`s exactly when an input is absent (Python `None`): the checks
are `is None` checks, so an empty (non-`None`) point set is not rejected. -/
theorem matchSrcAndCatalogue_precond_iff_none (env : Env)
    (cat : Option (List CatEntry)) (img : Option (List Source))
    (wcs : Option Wcs) (d c : ℚ) :
    isPrecondError (matchSrcAndCatalogue env cat img wcs d c).1 ↔
      (cat = none ∨ img = none ∨ wcs = none) := by
  cases cat with
  | none => simp [matchSrcAndCatalogue, isPrecondError]
  | some c0 =>
    cases img with
    | none => simp [matchSrcAndCatalogue, isPrecondError]
    | some i0 =>
      cases wcs with
      | none => simp [matchSrcAndCatalogue, isPrecondError]
      | some w1 =>
        cases hm : env.getMatches c0 i0 w1 d with
        | none => simp [matchSrcAndCatalogue, isPrecondError, hm]
        | some ml => simp [matchSrcAndCatalogue, isPrecondError, hm]

/-- `C8`: whenever `determineWcs` reaches the catalogue-fetch stage, the
characteristic field size `s` is the bounding-box diagonal of the detected
sources mapped through the transform, `sqrt(deltaRa^2 + deltaDec^2)`
converted to arcseconds, and the catalogue is requested with radius `2 * s`
(hence at least twice the field size). -/
theorem determineWcs_catalogRadius (env : Env) (policy : Policy)
    (wcsIn : Option Wcs) (srcSet : List Source) (s : ℝ)
    (h1 : env.solveBlindResult = true)
    (h2 : getImageSizeInArcsec srcSet env.solverWcs = some s) :
    (∃ minx maxx miny maxy,
      listMin (srcSet.map Source.xAstrom) = some minx ∧
      listMax (srcSet.map Source.xAstrom) = some maxx ∧
      listMin (srcSet.map Source.yAstrom) = some miny ∧
      listMax (srcSet.map Source.yAstrom) = some maxy ∧
      s = Real.sqrt ((((env.solverWcs.xyToRaDec maxx maxy).1
              - (env.solverWcs.xyToRaDec minx miny).1) ^ 2
            + ((env.solverWcs.xyToRaDec maxx maxy).2
              - (env.solverWcs.xyToRaDec minx miny).2) ^ 2 : ℚ) : ℝ) * 3600) ∧
      Event.getCatalogue (2 * s) ∈ (determineWcs env policy wcsIn srcSet).2 := by
  constructor
  · rcases hminx : listMin (srcSet.map Source.xAstrom) with _ | minx
    · rw [getImageSizeInArcsec, hminx] at h2; simp at h2
    rcases hmaxx : listMax (srcSet.map Source.xAstrom) with _ | maxx
    · rw [getImageSizeInArcsec, hminx, hmaxx] at h2; simp at h2
    rcases hminy : listMin (srcSet.map Source.yAstrom) with _ | miny
    · rw [getImageSizeInArcsec, hminx, hmaxx, hminy] at h2; simp at h2
    rcases hmaxy : listMax (srcSet.map Source.yAstrom) with _ | maxy
    · rw [getImageSizeInArcsec, hminx, hmaxx, hminy, hmaxy] at h2; simp at h2
    rw [getImageSizeInArcsec, hminx, hmaxx, hminy, hmaxy] at h2
    simp only [Option.some_inj] at h2
    exact ⟨minx, maxx, miny, maxy, rfl, rfl, rfl, rfl, h2.symm⟩
  · rw [determineWcs]
    simp only [Bool.or_true, if_true, h1, h2]
    rcases hmr : (matchSrcAndCatalogue env (some (env.getCatalogue (2 * s))) (some srcSet)
        (some env.solverWcs) policy.distanceForCatalogueMatchinArcsec
        policy.cleaningParameter).1 with e | ml
    · simp [hmr]
    · simp only [hmr]
      by_cases hl : ml.length = 0
      · simp [hl]
      · by_cases hs : policy.calculateSip
        · simp [hl, hs]
        · simp [hl, hs]

/-- Witness for `C8` at the one-source fixture (degenerate box, size `0`,
requested radius `2 * 0`). -/
theorem determineWcs_catalogRadius_witness :
    (∃ minx maxx miny maxy,
      listMin (srcSet0.map Source.xAstrom) = some minx ∧
      listMax (srcSet0.map Source.xAstrom) = some maxx ∧
      listMin (srcSet0.map Source.yAstrom) = some miny ∧
      listMax (srcSet0.map Source.yAstrom) = some maxy ∧
      (0 : ℝ) = Real.sqrt ((((envBase.solverWcs.xyToRaDec maxx maxy).1
              - (envBase.solverWcs.xyToRaDec minx miny).1) ^ 2
            + ((envBase.solverWcs.xyToRaDec maxx maxy).2
              - (envBase.solverWcs.xyToRaDec minx miny).2) ^ 2 : ℚ) : ℝ) * 3600) ∧
      Event.getCatalogue (2 * 0) ∈ (determineWcs envBase pol0 (some w0) srcSet0).2 :=
  determineWcs_catalogRadius envBase pol0 (some w0) srcSet0 0 rfl imgSize_srcSet0

/-- `C9`: when the matcher returns Python `None` (no match list at all),
`matchSrcAndCatalogue` raises `RuntimeError("No matches found between image
and catalogue")` before any cleaning, and the error propagates out of
`determineWcs` instead of the degraded fallback outcome. -/
theorem determineWcs_noMatches_raises (env : Env) (policy : Policy)
    (wcsIn : Option Wcs) (srcSet : List Source) (s : ℝ)
    (h1 : env.solveBlindResult = true)
    (h2 : getImageSizeInArcsec srcSet env.solverWcs = some s)
    (h3 : env.getMatches (env.getCatalogue (2 * s)) srcSet env.solverWcs
        policy.distanceForCatalogueMatchinArcsec = none) :
    (determineWcs env policy wcsIn srcSet).1
        = .error (.runtimeError "No matches found between image and catalogue") ∧
      Event.clean ∉ (determineWcs env policy wcsIn srcSet).2 := by
  simp [determineWcs, h1, h2, matchSrcAndCatalogue, h3]

/-- Witness for `C9`: a matcher that yields no match list makes the
`RuntimeError` propagate, with no cleaning call in the trace. -/
theorem determineWcs_noMatches_raises_witness :
    (determineWcs envNoMatches pol0 (some w0) srcSet0).1
        = .error (.runtimeError "No matches found between image and catalogue") ∧
      Event.clean ∉ (determineWcs envNoMatches pol0 (some w0) srcSet0).2 :=
  determineWcs_noMatches_raises envNoMatches pol0 (some w0) srcSet0 0
    rfl imgSize_srcSet0 rfl
